import Mathlib

/-!
Verification of the win_dbg_logger crate (src/src/lib.rs): a logging
provider that forwards formatted log records to the Windows debugger
output channel.

The embedding models the log-crate data types (severity levels, metadata,
records), the provider operations (enabled, log, flush), and the platform
capabilities (IsDebuggerPresent, OutputDebugString) as pure functions over
an explicit environment.  Observable effects are the list of strings
transmitted to the OS debugger-output primitive.
-/

namespace WinDbgLogger

/-- Severity levels of the log crate, ordered by the discriminant used by
its derived ordering: Error = 1, Warn = 2, Info = 3, Debug = 4, Trace = 5. -/
inductive Level where
  | error
  | warn
  | info
  | debug
  | trace
deriving DecidableEq, Repr

/-- The numeric discriminant of a level, matching the log-crate repr. -/
def Level.toNat : Level → Nat
  | .error => 1
  | .warn => 2
  | .info => 3
  | .debug => 4
  | .trace => 5

/-- The derived ordering on levels compares discriminants (Error is the
most severe and has the smallest discriminant). -/
def Level.le (a b : Level) : Bool :=
  a.toNat ≤ b.toNat

/-- Display rendering of a level, from the log-crate LOG_LEVEL_NAMES
table: the canonical uppercase name. -/
def Level.as_str : Level → String
  | .error => "ERROR"
  | .warn => "WARN"
  | .info => "INFO"
  | .debug => "DEBUG"
  | .trace => "TRACE"

/-- Filter levels of the log crate, used for the process-wide maximum
level (Off plus the five severity levels). -/
inductive LevelFilter where
  | off
  | error
  | warn
  | info
  | debug
  | trace
deriving DecidableEq, Repr

/-- Metadata of a log record: a severity level and a target string. -/
structure Metadata where
  level : Level
  target : String
deriving DecidableEq, Repr

/-- A log record: metadata, optional source file, optional line number,
and the rendered message (record.args()). -/
structure Record where
  metadata : Metadata
  file : Option String
  line : Option Nat
  args : String
deriving DecidableEq, Repr

/-- The platform environment: whether the build targets Windows and
whether the IsDebuggerPresent primitive reports an attached debugger. -/
structure Env where
  windows : Bool
  debuggerAttached : Bool
deriving DecidableEq, Repr

/-- output_debug_string (lib.rs lines 77-88): on Windows the string is
encoded and passed to OutputDebugStringW; on other platforms the body is
empty.  The result is the list of strings transmitted to the primitive. -/
def output_debug_string (env : Env) (s : String) : List String :=
  if env.windows then [s] else []

/-- is_debugger_present (lib.rs lines 101-110): on Windows it returns
IsDebuggerPresent() != 0; on other platforms it returns false. -/
def is_debugger_present (env : Env) : Bool :=
  if env.windows then env.debuggerAttached else false

/-- DebuggerLogger::enabled (lib.rs lines 52-54):
metadata.level() <= Level::Debug. -/
def enabled (metadata : Metadata) : Bool :=
  Level.le metadata.level Level.debug

/-- The format string of DebuggerLogger::log (lib.rs lines 58-64):
file(line): LEVEL - message, terminated by carriage return + line feed,
with a missing file shown as <unknown> and a missing line as 0. -/
def formatRecord (r : Record) : String :=
  (r.file.getD "<unknown>") ++ "(" ++ Nat.repr (r.line.getD 0) ++ "): "
    ++ r.metadata.level.as_str ++ " - " ++ r.args ++ "\r\n"

/-- DebuggerLogger::log (lib.rs lines 56-67): if enabled and a debugger
is present, format the record and pass it to output_debug_string;
otherwise do nothing.  The result is the list of transmitted strings. -/
def log (env : Env) (r : Record) : List String :=
  if enabled r.metadata && is_debugger_present env then
    output_debug_string env (formatRecord r)
  else
    []

/-- DebuggerLogger::flush (lib.rs line 69): empty body, no effect. -/
def flush : List String :=
  []

/-- Identity of a registered provider.  DEBUGGER_LOGGER is the static
provider of this crate; other values model foreign providers that the
log-crate registry could hold. -/
inductive ProviderId where
  | debuggerLogger
  | other (n : Nat)
deriving DecidableEq, Repr

/-- State of the process-wide log-crate registry: the registered provider
slot (at most one) and the process-wide maximum level. -/
structure RegistryState where
  logger : Option ProviderId
  maxLevel : LevelFilter
deriving DecidableEq, Repr

/-- Modelled from the spec: log::set_logger, the registration operation of
the external log crate (not part of src/).  Atomically sets the provider
slot if it is empty and succeeds; if a provider is already registered it
leaves the state unchanged and fails with an error value.  Returns the new
state and whether registration succeeded. -/
def set_logger (p : ProviderId) (st : RegistryState) : RegistryState × Bool :=
  match st.logger with
  | some _ => (st, false)
  | none => ({ st with logger := some p }, true)

/-- Modelled from the spec: log::set_max_level, the severity-filter setter
of the external log crate (not part of src/).  Sets the process-wide
maximum level. -/
def set_max_level (f : LevelFilter) (st : RegistryState) : RegistryState :=
  { st with maxLevel := f }

/-- The fixed warning written by init when registration fails
(lib.rs lines 124-126). -/
def initWarning : String :=
  "Warning: Failed to register DebuggerLogger as the current Rust logger.\r\n"

/-- init (lib.rs lines 119-129): register DEBUGGER_LOGGER via
log::set_logger; on success do nothing more; on failure write the fixed
warning directly through output_debug_string and return normally. -/
def init (env : Env) (st : RegistryState) : RegistryState × List String :=
  match set_logger ProviderId.debuggerLogger st with
  | (st2, true) => (st2, [])
  | (st2, false) => (st2, output_debug_string env initWarning)

/-- rust_win_dbg_logger_init_info (lib.rs line 163, via the
define_init_at_level helper at lines 131-161): init() followed by
log::set_max_level(LevelFilter::Info). -/
def rust_win_dbg_logger_init_info (env : Env) (st : RegistryState) :
    RegistryState × List String :=
  match init env st with
  | (st2, out) => (set_max_level LevelFilter.info st2, out)

/-- rust_win_dbg_logger_init_trace (lib.rs line 164): init() followed by
log::set_max_level(LevelFilter::Trace). -/
def rust_win_dbg_logger_init_trace (env : Env) (st : RegistryState) :
    RegistryState × List String :=
  match init env st with
  | (st2, out) => (set_max_level LevelFilter.trace st2, out)

/-- rust_win_dbg_logger_init_debug (lib.rs line 165): init() followed by
log::set_max_level(LevelFilter::Debug). -/
def rust_win_dbg_logger_init_debug (env : Env) (st : RegistryState) :
    RegistryState × List String :=
  match init env st with
  | (st2, out) => (set_max_level LevelFilter.debug st2, out)

/-- rust_win_dbg_logger_init_warn (lib.rs line 166): init() followed by
log::set_max_level(LevelFilter::Warn). -/
def rust_win_dbg_logger_init_warn (env : Env) (st : RegistryState) :
    RegistryState × List String :=
  match init env st with
  | (st2, out) => (set_max_level LevelFilter.warn st2, out)

/-- rust_win_dbg_logger_init_error (lib.rs line 167): init() followed by
log::set_max_level(LevelFilter::Error). -/
def rust_win_dbg_logger_init_error (env : Env) (st : RegistryState) :
    RegistryState × List String :=
  match init env st with
  | (st2, out) => (set_max_level LevelFilter.error st2, out)

/-- The operations reachable on the registry: registration, filter
updates, init, the five foreign-callable init entry points, provider log
and flush. -/
inductive Op where
  | register (p : ProviderId)
  | setFilter (f : LevelFilter)
  | doInit
  | initInfo
  | initTrace
  | initDebug
  | initWarn
  | initError
  | logRec (r : Record)
  | doFlush
deriving DecidableEq, Repr

/-- One step of the registry state machine: the state after executing a
single operation. -/
def step (env : Env) (st : RegistryState) : Op → RegistryState
  | .register p => (set_logger p st).1
  | .setFilter f => set_max_level f st
  | .doInit => (init env st).1
  | .initInfo => (rust_win_dbg_logger_init_info env st).1
  | .initTrace => (rust_win_dbg_logger_init_trace env st).1
  | .initDebug => (rust_win_dbg_logger_init_debug env st).1
  | .initWarn => (rust_win_dbg_logger_init_warn env st).1
  | .initError => (rust_win_dbg_logger_init_error env st).1
  | .logRec _ => st
  | .doFlush => st

/-- The state after executing a whole sequence of operations. -/
def run (env : Env) (st : RegistryState) : List Op → RegistryState
  | [] => st
  | op :: ops => run env (step env st op) ops

end WinDbgLogger

namespace WinDbgLogger

/-- If a provider is registered, no single operation clears or replaces
the provider slot. -/
lemma step_logger (env : Env) (st : RegistryState) (op : Op) (p : ProviderId)
    (h : st.logger = some p) : (step env st op).logger = some p := by
  cases op <;>
    simp [step, set_logger, set_max_level, init,
      rust_win_dbg_logger_init_info, rust_win_dbg_logger_init_trace,
      rust_win_dbg_logger_init_debug, rust_win_dbg_logger_init_warn,
      rust_win_dbg_logger_init_error, h]

/-- If a provider is registered, no sequence of operations clears or
replaces the provider slot. -/
lemma run_logger (env : Env) (p : ProviderId) (ops : List Op) :
    ∀ st : RegistryState, st.logger = some p →
      (run env st ops).logger = some p := by
  induction ops with
  | nil => intro st h; exact h
  | cons op ops ih => intro st h; exact ih _ (step_logger env st op p h)

/-- C1: for every record that passes enabled, with a debugger present, the
string forwarded to the debugger-output capability is exactly
file(line): SEVERITY - message followed by carriage return + line feed,
with a missing file rendered as the token <unknown> and a missing line as
0; in particular file foo.rs, line 42, severity Warn, message bad thing
yields "foo.rs(42): WARN - bad thing\r\n", and file None, line None yields
"<unknown>(0): WARN - bad thing\r\n". -/
theorem log_format_exact (file : Option String) (line : Option Nat)
    (lvl : Level) (tgt msg : String) (env : Env)
    (hen : enabled ⟨lvl, tgt⟩ = true)
    (hw : env.windows = true) (hd : env.debuggerAttached = true) :
    log env ⟨⟨lvl, tgt⟩, file, line, msg⟩ =
      [(file.getD "<unknown>") ++ "(" ++ Nat.repr (line.getD 0) ++ "): "
        ++ lvl.as_str ++ " - " ++ msg ++ "\r\n"] ∧
    log env ⟨⟨Level.warn, "app"⟩, some "foo.rs", some 42, "bad thing"⟩ =
      ["foo.rs(42): WARN - bad thing\r\n"] ∧
    log env ⟨⟨Level.warn, "app"⟩, none, none, "bad thing"⟩ =
      ["<unknown>(0): WARN - bad thing\r\n"] := by
  have hpres : is_debugger_present env = true := by
    simp [is_debugger_present, hw, hd]
  have hwarn : enabled ⟨Level.warn, "app"⟩ = true := rfl
  refine ⟨?_, ?_, ?_⟩
  · simp [log, hen, hpres, output_debug_string, hw, formatRecord]
  · have h2 : log env ⟨⟨Level.warn, "app"⟩, some "foo.rs", some 42, "bad thing"⟩ =
        [formatRecord ⟨⟨Level.warn, "app"⟩, some "foo.rs", some 42, "bad thing"⟩] := by
      simp [log, hwarn, hpres, output_debug_string, hw]
    rw [h2]
    decide
  · have h3 : log env ⟨⟨Level.warn, "app"⟩, none, none, "bad thing"⟩ =
        [formatRecord ⟨⟨Level.warn, "app"⟩, none, none, "bad thing"⟩] := by
      simp [log, hwarn, hpres, output_debug_string, hw]
    rw [h3]
    decide

/-- Witness for C1 at file foo.rs, line 42, severity Warn, target app,
message bad thing, on Windows with a debugger attached. -/
theorem log_format_exact_witness :
    log ⟨true, true⟩ ⟨⟨Level.warn, "app"⟩, some "foo.rs", some 42, "bad thing"⟩ =
      ["foo.rs(42): WARN - bad thing\r\n"] := by
  have h := log_format_exact (some "foo.rs") (some 42) Level.warn "app"
    "bad thing" ⟨true, true⟩ (by decide) rfl rfl
  exact h.2.1

/-- C2: enabled returns true exactly for the levels at or above the fixed
Debug threshold, namely Error, Warn, Info and Debug, and false exactly for
Trace.  Both directions are stated; in the embedding enabled is a pure
function of the metadata, so the result cannot depend on call order or
prior calls. -/
theorem enabled_iff_threshold (m : Metadata) :
    (enabled m = true ↔ (m.level = Level.error ∨ m.level = Level.warn ∨
      m.level = Level.info ∨ m.level = Level.debug)) ∧
    (enabled m = false ↔ m.level = Level.trace) := by
  obtain ⟨lvl, tgt⟩ := m
  cases lvl <;> simp [enabled, Level.le, Level.toNat]

/-- Witness for C2 at severity Debug: enabled holds and the level is among
the four passing levels. -/
theorem enabled_iff_threshold_witness :
    enabled ⟨Level.debug, "app"⟩ = true :=
  (enabled_iff_threshold ⟨Level.debug, "app"⟩).1.mpr
    (Or.inr (Or.inr (Or.inr rfl)))

/-- C3: the forward of the formatted record is the only observable effect
of log, and it happens exactly when both enabled and the debugger-presence
check pass; if either fails, log emits nothing. -/
theorem log_frame (env : Env) (r : Record) :
    (enabled r.metadata = true → is_debugger_present env = true →
      log env r = [formatRecord r]) ∧
    ((enabled r.metadata = false ∨ is_debugger_present env = false) →
      log env r = []) := by
  constructor
  · intro he hp
    have hw : env.windows = true := by
      cases hwin : env.windows
      · simp [is_debugger_present, hwin] at hp
      · rfl
    simp [log, he, hp, output_debug_string, hw]
  · rintro (h | h) <;> simp [log, h]

/-- Witness for C3: on a non-Windows environment the debugger-presence
check fails and log emits nothing. -/
theorem log_frame_witness :
    log ⟨false, false⟩ ⟨⟨Level.error, "app"⟩, none, none, "m"⟩ = [] :=
  (log_frame ⟨false, false⟩ ⟨⟨Level.error, "app"⟩, none, none, "m"⟩).2
    (Or.inr rfl)

/-- C4: init registers the static provider when the slot is free; when
registration fails because a provider is already registered, init does not
propagate the error (it is a total function returning normally), writes
the fixed warning through the debugger-output capability best-effort, and
when that capability is unavailable (non-Windows) it still returns
normally having emitted nothing. -/
theorem init_behavior (env : Env) (st : RegistryState) :
    (st.logger = none →
      init env st = ({ st with logger := some ProviderId.debuggerLogger }, [])) ∧
    (∀ p, st.logger = some p →
      init env st = (st, output_debug_string env initWarning)) ∧
    (env.windows = false → (init env st).2 = []) := by
  refine ⟨?_, ?_, ?_⟩
  · intro h; simp [init, set_logger, h]
  · intro p h; simp [init, set_logger, h]
  · intro hw
    cases h : st.logger <;>
      simp [init, set_logger, output_debug_string, h, hw]

/-- Witness for C4: with a provider already registered and no debugger
capability, init returns the unchanged state and emits nothing. -/
theorem init_behavior_witness :
    init ⟨false, false⟩ ⟨some ProviderId.debuggerLogger, LevelFilter.off⟩ =
      (⟨some ProviderId.debuggerLogger, LevelFilter.off⟩, []) :=
  (init_behavior ⟨false, false⟩
    ⟨some ProviderId.debuggerLogger, LevelFilter.off⟩).2.1
    ProviderId.debuggerLogger rfl

/-- C5: each of the five foreign-callable init entry points, one per
severity level, is behaviorally init() followed by setting the
process-wide severity filter to its level, leaving the emitted output
that of init alone. -/
theorem foreign_init_entry_points (env : Env) (st : RegistryState) :
    rust_win_dbg_logger_init_info env st =
      (set_max_level LevelFilter.info (init env st).1, (init env st).2) ∧
    rust_win_dbg_logger_init_trace env st =
      (set_max_level LevelFilter.trace (init env st).1, (init env st).2) ∧
    rust_win_dbg_logger_init_debug env st =
      (set_max_level LevelFilter.debug (init env st).1, (init env st).2) ∧
    rust_win_dbg_logger_init_warn env st =
      (set_max_level LevelFilter.warn (init env st).1, (init env st).2) ∧
    rust_win_dbg_logger_init_error env st =
      (set_max_level LevelFilter.error (init env st).1, (init env st).2) :=
  ⟨rfl, rfl, rfl, rfl, rfl⟩

/-- C6: on a platform without the debugger capabilities,
is_debugger_present returns false, output_debug_string transmits nothing
for every string, and consequently log has no observable effect for every
record. -/
theorem unsupported_platform_noop (env : Env) (h : env.windows = false) :
    is_debugger_present env = false ∧
    (∀ s, output_debug_string env s = []) ∧
    (∀ r, log env r = []) := by
  refine ⟨?_, ?_, ?_⟩ <;>
    simp [is_debugger_present, output_debug_string, log, h]

/-- Witness for C6 on the non-Windows environment. -/
theorem unsupported_platform_noop_witness :
    log ⟨false, true⟩ ⟨⟨Level.error, "app"⟩, some "a.c", some 7, "x"⟩ = [] :=
  (unsupported_platform_noop ⟨false, true⟩ rfl).2.2
    ⟨⟨Level.error, "app"⟩, some "a.c", some 7, "x"⟩

/-- C7: once a provider occupies the registry slot, no sequence of the
reachable operations (register, filter updates, init, the five
foreign-callable inits, log, flush) clears the slot or replaces the
provider, and any further registration attempt fails softly, leaving the
state unchanged and reporting failure. -/
theorem registry_write_once (env : Env) (st : RegistryState) (p : ProviderId)
    (h : st.logger = some p) :
    (∀ ops : List Op, (run env st ops).logger = some p) ∧
    (∀ q, set_logger q st = (st, false)) := by
  refine ⟨fun ops => run_logger env p ops st h, fun q => ?_⟩
  simp [set_logger, h]

/-- Witness for C7: after registering the static provider, an init, a
second registration attempt, a filter change and a flush leave the slot
holding the original provider. -/
theorem registry_write_once_witness :
    (run ⟨true, true⟩ ⟨some ProviderId.debuggerLogger, LevelFilter.trace⟩
      [Op.doInit, Op.register (ProviderId.other 0), Op.setFilter LevelFilter.info,
        Op.doFlush]).logger = some ProviderId.debuggerLogger :=
  (registry_write_once ⟨true, true⟩
    ⟨some ProviderId.debuggerLogger, LevelFilter.trace⟩
    ProviderId.debuggerLogger rfl).1
    [Op.doInit, Op.register (ProviderId.other 0), Op.setFilter LevelFilter.info,
      Op.doFlush]

/-- C8: flush is a no-op: in every registry state the flush operation
leaves the state unchanged, and its body emits nothing. -/
theorem flush_noop (env : Env) (st : RegistryState) :
    step env st Op.doFlush = st ∧ flush = ([] : List String) :=
  ⟨rfl, rfl⟩

/-- C9: enabled depends only on the severity level of the metadata: two
metadata values with equal levels but arbitrary other fields get the same
answer. -/
theorem enabled_depends_only_on_level (m1 m2 : Metadata)
    (h : m1.level = m2.level) : enabled m1 = enabled m2 := by
  simp [enabled, h]

/-- Witness for C9: two metadata values sharing level Info but with
different targets get the same enabled result. -/
theorem enabled_depends_only_on_level_witness :
    enabled ⟨Level.info, "alpha"⟩ = enabled ⟨Level.info, "beta"⟩ :=
  enabled_depends_only_on_level ⟨Level.info, "alpha"⟩ ⟨Level.info, "beta"⟩ rfl

/-- C10: the fallback warning write of init on registration failure is
unconditional at the provider level: on a capable platform the warning
string is passed to the output primitive even when no debugger is
attached, and the result of init never depends on the debugger-presence
bit at all. -/
theorem init_warning_unconditional (env : Env) (st : RegistryState)
    (p : ProviderId) (hreg : st.logger = some p) (hw : env.windows = true) :
    init env st = (st, [initWarning]) ∧
    (∀ d1 d2 : Bool,
      init ⟨env.windows, d1⟩ st = init ⟨env.windows, d2⟩ st) := by
  constructor
  · simp [init, set_logger, output_debug_string, hreg, hw]
  · intro d1 d2
    simp [init, set_logger, output_debug_string, hreg]

/-- Witness for C10: on Windows with no debugger attached and a provider
already registered, init passes the warning string to the output
primitive. -/
theorem init_warning_unconditional_witness :
    init ⟨true, false⟩ ⟨some ProviderId.debuggerLogger, LevelFilter.debug⟩ =
      (⟨some ProviderId.debuggerLogger, LevelFilter.debug⟩, [initWarning]) :=
  (init_warning_unconditional ⟨true, false⟩
    ⟨some ProviderId.debuggerLogger, LevelFilter.debug⟩
    ProviderId.debuggerLogger rfl rfl).1

end WinDbgLogger
